import Mathlib

/-!
Verification development for `src/evidently/ui/workspace/remote.py`: the
remote-workspace HTTP adapter (transport layer, metadata-storage adapter and
workspace facade).  Python dictionaries are modelled as association lists in
insertion order, JSON values as an inductive type, the HTTP wire as an oracle
from requests to outcomes, and Python exception handling as `Except` over
explicit exception values carrying their class; `except C:` clauses test the
class against the real CPython / requests / json / pydantic inheritance
chains, which are reproduced below.
-/

/-- A Python `float` as it appears in a request body: either a finite value
(whose decimal `repr` round-trips exactly, so it is modelled by its exact
value) or one of the three non-finite values. -/
inductive PyFloat where
  | finite (q : Rat)
  | nan
  | inf
  | neginf
deriving DecidableEq

/-- A Python value that can sit in a request/response body mapping: the JSON
universe plus `io.IOBase` binary streams (which appear in form-data bodies
and are not JSON serializable). -/
inductive PyVal where
  | jnull
  | jbool (b : Bool)
  | jnum (f : PyFloat)
  | jstr (s : String)
  | jarr (elems : List PyVal)
  | jobj (fields : List (String × PyVal))
  | ioStream (contents : String)

/-- `isinstance(v, io.IOBase)`, the test `RemoteBase._prepare_request` uses to
split a form body into file parts and plain fields. -/
def PyVal.isIOBase : PyVal → Bool
  | .ioStream _ => true
  | _ => false

/-- A serialized JSON number literal as Python's `json.dumps` emits it:
`NaN` / `Infinity` / `-Infinity` for the non-finite floats (legal because the
source passes `allow_nan=True`), or a decimal numeral for a finite value,
modelled by the exact value it denotes (CPython's `repr`/`float` round trip
is exact). -/
inductive NumLit where
  | nanLit
  | infLit
  | negInfLit
  | decLit (q : Rat)
deriving DecidableEq

/-- A serialized JSON document, the output of the `json.dumps` call in
`RemoteBase._prepare_request`. -/
inductive JDoc where
  | dnull
  | dbool (b : Bool)
  | dnum (lit : NumLit)
  | dstr (s : String)
  | darr (elems : List JDoc)
  | dobj (fields : List (String × JDoc))

/-- The Python exception classes that can flow through `remote.py`.  Note the
two distinct `HTTPError` classes: `urllib.error.HTTPError` (which the module
imports and catches) and `requests.exceptions.HTTPError` (which
`Response.raise_for_status` actually raises). -/
inductive PyClass where
  | baseException
  | exception
  | valueError
  | jsonDecodeError
  | requestsJSONDecodeError
  | lookupError
  | keyError
  | typeError
  | attributeError
  | assertionError
  | osError
  | urllibURLError
  | urllibHTTPError
  | requestsException
  | requestsConnectionError
  | requestsHTTPError
  | evidentlyServiceError
  | projectNotFound
  | validationError
deriving DecidableEq

/-- The single-inheritance chain of each class, following CPython
(`KeyError < LookupError < Exception`, `json.JSONDecodeError < ValueError`),
requests (`RequestException < IOError`; `requests.exceptions.JSONDecodeError`
reaches `ValueError` through `json.JSONDecodeError`), urllib
(`HTTPError < URLError < OSError`), pydantic v1
(`ValidationError < ValueError`) and evidently's error module
(`ProjectNotFound < ... < EvidentlyServiceError < Exception`); secondary
bases not tested by any `except` clause in the source are omitted. -/
def PyClass.parent : PyClass → Option PyClass
  | .baseException => none
  | .exception => some .baseException
  | .valueError => some .exception
  | .jsonDecodeError => some .valueError
  | .requestsJSONDecodeError => some .jsonDecodeError
  | .lookupError => some .exception
  | .keyError => some .lookupError
  | .typeError => some .exception
  | .attributeError => some .exception
  | .assertionError => some .exception
  | .osError => some .exception
  | .urllibURLError => some .osError
  | .urllibHTTPError => some .urllibURLError
  | .requestsException => some .osError
  | .requestsConnectionError => some .requestsException
  | .requestsHTTPError => some .requestsException
  | .evidentlyServiceError => some .exception
  | .projectNotFound => some .evidentlyServiceError
  | .validationError => some .valueError

/-- The inheritance chain of a class, self first (fuel-bounded walk up
`parent`; every chain above has depth at most five). -/
def PyClass.ancestorsAux : Nat → PyClass → List PyClass
  | 0, c => [c]
  | fuel + 1, c =>
    c :: (match c.parent with
          | none => []
          | some p => PyClass.ancestorsAux fuel p)

def PyClass.ancestors (c : PyClass) : List PyClass :=
  PyClass.ancestorsAux 8 c

/-- The JSON parse of an HTTP response body: `none` when the body is not
valid JSON (so `Response.json()` raises), otherwise the parsed value. -/
structure HTTPResponse where
  status : Nat
  jsonBody : Option PyVal

/-- A raised Python exception: its class, its argument (the `detail` payload
for `EvidentlyServiceError`, the message otherwise) and, for requests
exceptions that carry one, the attached `Response`. -/
structure PyErr where
  cls : PyClass
  arg : PyVal
  response : Option HTTPResponse

/-- `isinstance(e, c)`: the class of `e` is `c` or inherits from it. -/
def PyErr.isinstance (e : PyErr) (c : PyClass) : Bool :=
  c ∈ e.cls.ancestors

def PyErr.ofClass (c : PyClass) : PyErr :=
  { cls := c, arg := .jnull, response := none }

mutual

/-- `json.dumps(body, allow_nan=allow_nan, cls=NumpyEncoder)` from
`RemoteBase._prepare_request` (line 79).  `NumpyEncoder` only widens the
encoder to numpy scalar types, which do not occur in this value universe, so
the behaviour is CPython's: non-finite floats become the `NaN` / `Infinity` /
`-Infinity` literals when `allow_nan` is set and raise `ValueError`
otherwise; a binary stream is not serializable and raises `TypeError`. -/
def json_dumps (allow_nan : Bool) : PyVal → Except PyErr JDoc
  | .jnull => .ok .dnull
  | .jbool b => .ok (.dbool b)
  | .jstr s => .ok (.dstr s)
  | .jnum f =>
    match f with
    | .finite q => .ok (.dnum (.decLit q))
    | .nan => if allow_nan then .ok (.dnum .nanLit) else .error (.ofClass .valueError)
    | .inf => if allow_nan then .ok (.dnum .infLit) else .error (.ofClass .valueError)
    | .neginf => if allow_nan then .ok (.dnum .negInfLit) else .error (.ofClass .valueError)
  | .jarr elems => (json_dumps_list allow_nan elems).map .darr
  | .jobj fields => (json_dumps_obj allow_nan fields).map .dobj
  | .ioStream _ => .error (.ofClass .typeError)

/-- `json.dumps` over the elements of a JSON array, left to right. -/
def json_dumps_list (allow_nan : Bool) : List PyVal → Except PyErr (List JDoc)
  | [] => .ok []
  | v :: vs =>
    match json_dumps allow_nan v with
    | .error e => .error e
    | .ok d =>
      match json_dumps_list allow_nan vs with
      | .error e => .error e
      | .ok ds => .ok (d :: ds)

/-- `json.dumps` over the entries of a JSON object, in insertion order. -/
def json_dumps_obj (allow_nan : Bool) : List (String × PyVal) → Except PyErr (List (String × JDoc))
  | [] => .ok []
  | (k, v) :: kvs =>
    match json_dumps allow_nan v with
    | .error e => .error e
    | .ok d =>
      match json_dumps_obj allow_nan kvs with
      | .error e => .error e
      | .ok ds => .ok ((k, d) :: ds)

end

mutual

/-- `json.loads` on a serialized document: Python's decoder accepts the
`NaN` / `Infinity` / `-Infinity` literals by default and yields the
corresponding non-finite floats. -/
def json_loads : JDoc → PyVal
  | .dnull => .jnull
  | .dbool b => .jbool b
  | .dstr s => .jstr s
  | .dnum .nanLit => .jnum .nan
  | .dnum .infLit => .jnum .inf
  | .dnum .negInfLit => .jnum .neginf
  | .dnum (.decLit q) => .jnum (.finite q)
  | .darr elems => .jarr (json_loads_list elems)
  | .dobj fields => .jobj (json_loads_obj fields)

def json_loads_list : List JDoc → List PyVal
  | [] => []
  | d :: ds => json_loads d :: json_loads_list ds

def json_loads_obj : List (String × JDoc) → List (String × PyVal)
  | [] => []
  | (k, d) :: kvs => (k, json_loads d) :: json_loads_obj kvs

end

mutual

/-- No binary stream anywhere in the value (request bodies sent as JSON are
plain data). -/
def PyVal.ioFree : PyVal → Bool
  | .jnull => true
  | .jbool _ => true
  | .jnum _ => true
  | .jstr _ => true
  | .jarr elems => PyVal.ioFreeList elems
  | .jobj fields => PyVal.ioFreeObj fields
  | .ioStream _ => false

def PyVal.ioFreeList : List PyVal → Bool
  | [] => true
  | v :: vs => v.ioFree && PyVal.ioFreeList vs

def PyVal.ioFreeObj : List (String × PyVal) → Bool
  | [] => true
  | (_, v) :: kvs => v.ioFree && PyVal.ioFreeObj kvs

end

mutual

/-- Some non-finite float occurs in the value. -/
def PyVal.hasNonFinite : PyVal → Bool
  | .jnum .nan => true
  | .jnum .inf => true
  | .jnum .neginf => true
  | .jnum (.finite _) => false
  | .jarr elems => PyVal.hasNonFiniteList elems
  | .jobj fields => PyVal.hasNonFiniteObj fields
  | _ => false

def PyVal.hasNonFiniteList : List PyVal → Bool
  | [] => false
  | v :: vs => v.hasNonFinite || PyVal.hasNonFiniteList vs

def PyVal.hasNonFiniteObj : List (String × PyVal) → Bool
  | [] => false
  | (_, v) :: kvs => v.hasNonFinite || PyVal.hasNonFiniteObj kvs

end

/-- Python dict assignment `d[k] = v` on an insertion-ordered mapping:
replace in place when the key exists, append otherwise. -/
def insertAssoc (xs : List (String × String)) (k v : String) : List (String × String) :=
  if xs.any (fun kv => kv.1 == k) then
    xs.map (fun kv => if kv.1 = k then (k, v) else kv)
  else xs ++ [(k, v)]

/-- Characters up to (excluding) the first `/`. -/
def takeUntilSlash : List Char → List Char
  | [] => []
  | c :: cs => if c = '/' then [] else c :: takeUntilSlash cs

/-- Characters of the scheme-and-authority part of a URL: everything through
the first `://` plus the authority up to the next `/`; nothing when the text
has no `://`. -/
def schemeAuthChars : List Char → Option (List Char)
  | ':' :: '/' :: '/' :: rest => some (':' :: '/' :: '/' :: takeUntilSlash rest)
  | c :: cs => (schemeAuthChars cs).map (c :: ·)
  | [] => none

/-- The scheme-and-authority part of a base URL, e.g.
`http://host:8000/x` ↦ `http://host:8000`. -/
def schemeAuthority (base : String) : String :=
  match schemeAuthChars base.data with
  | some cs => String.mk cs
  | none => ""

/-- `urllib.parse.urljoin(base, path)` for the reference forms this adapter
produces: every path the module joins starts with `/` (an absolute-path
reference), which replaces the base URL's path; other reference forms never
occur here and are mapped to plain concatenation. -/
def urljoin (base path : String) : String :=
  match path.data with
  | '/' :: _ => schemeAuthority base ++ path
  | _ => base ++ path

/-- The body payload attached to a prepared request: the serialized JSON
document, or the plain form fields (binary streams having been split off
into the file-parts collection). -/
inductive ReqData where
  | jsonData (doc : JDoc)
  | formFields (fields : List (String × PyVal))

/-- A prepared `requests.Request`: the arguments `RemoteBase._prepare_request`
passes to the `Request` constructor. -/
structure HTTPRequest where
  method : String
  url : String
  params : Option (List (String × String))
  data : Option ReqData
  files : Option (List (String × PyVal))
  headers : List (String × String)
  cookies : List (String × String)

/-- The outcome of `_prepare_request` together with the caller-visible final
state of the two argument mappings the source can mutate: `bodyAfter` is the
caller's `body` dict after the call, `headersAfter` the caller's `headers`
dict after the call. `headersAliased` records whether the local `headers`
variable (and hence the `Request`'s `headers`) is the caller's own dict:
Python's `headers = headers or {}` rebinds to a fresh dict when the caller
passed `None` or an empty (falsy) dict. -/
structure PrepResult where
  result : Except PyErr HTTPRequest
  bodyAfter : Option (List (String × PyVal))
  headersAfter : Option (List (String × String))
  headersAliased : Bool

/-- `RemoteBase._prepare_request` (remote.py lines 58-88), with `url` the
value of `self.get_url()`.  JSON bodies: set `Content-Type`, then serialize
with `allow_nan=True` (a `TypeError` from an unserializable value escapes
after the header mutation).  Form bodies: pop every `io.IOBase`-valued entry
from the caller's `body` dict into the file-parts collection; the form
fields sent are the dict's remaining entries (the source's `data = body`
aliases the dict it then pops). -/
def RemoteBase._prepare_request (url path method : String)
    (query_params : Option (List (String × String)))
    (body : Option (List (String × PyVal)))
    (cookies : Option (List (String × String)))
    (headers : Option (List (String × String)))
    (form_data : Bool) : PrepResult :=
  let cookies0 := cookies.getD []
  let headersAliased := match headers with
    | some hs => hs ≠ []
    | none => false
  let headers0 := headers.getD []
  match body with
  | none =>
    { result := .ok { method := method, url := urljoin url path, params := query_params,
                      data := none, files := none, headers := headers0, cookies := cookies0 },
      bodyAfter := none, headersAfter := headers, headersAliased := headersAliased }
  | some b =>
    if form_data then
      let files := b.filter (fun kv => kv.2.isIOBase)
      let bAfter := b.filter (fun kv => !kv.2.isIOBase)
      { result := .ok { method := method, url := urljoin url path, params := query_params,
                        data := some (.formFields bAfter), files := some files,
                        headers := headers0, cookies := cookies0 },
        bodyAfter := some bAfter, headersAfter := headers, headersAliased := headersAliased }
    else
      let headers1 := insertAssoc headers0 "Content-Type" "application/json"
      let hAfter := if headersAliased then some headers1 else headers
      match json_dumps true (.jobj b) with
      | .error e =>
        { result := .error e, bodyAfter := some b, headersAfter := hAfter,
          headersAliased := headersAliased }
      | .ok d =>
        { result := .ok { method := method, url := urljoin url path, params := query_params,
                          data := some (.jsonData d), files := none,
                          headers := headers1, cookies := cookies0 },
          bodyAfter := some b, headersAfter := hAfter, headersAliased := headersAliased }

/-- Modelled from the spec: the fixed header name that carries the shared
secret (`SECRET_HEADER_NAME`, imported from `evidently.ui.storage.common`,
which is not among the repository files given). -/
def SECRET_HEADER_NAME : String := "evidently-secret"

/-- The state of a `RemoteMetadataStorage` instance: its base URL and the
optional shared secret (remote.py lines 146-148). -/
structure RemoteMetadataStorage where
  base_url : String
  secret : Option String

/-- `RemoteMetadataStorage._prepare_request` (remote.py lines 153-174):
delegate to `RemoteBase._prepare_request` (with `get_url()` returning
`base_url`), then, when a secret is configured, set the secret header on the
prepared request.  Since `requests.Request` stores the headers mapping it
was given, that assignment also reaches the caller's dict when the local
`headers` aliases it. -/
def RemoteMetadataStorage._prepare_request (self : RemoteMetadataStorage)
    (path method : String)
    (query_params : Option (List (String × String)))
    (body : Option (List (String × PyVal)))
    (cookies : Option (List (String × String)))
    (headers : Option (List (String × String)))
    (form_data : Bool) : PrepResult :=
  let r := RemoteBase._prepare_request self.base_url path method query_params body
    cookies headers form_data
  match self.secret with
  | none => r
  | some s =>
    match r.result with
    | .error _ => r
    | .ok req =>
      let req2 := { req with headers := insertAssoc req.headers SECRET_HEADER_NAME s }
      { r with result := .ok req2,
               headersAfter := if r.headersAliased then some req2.headers else r.headersAfter }

/-- `Response.json()`: the parsed body, or a
`requests.exceptions.JSONDecodeError` when the body is not valid JSON. -/
def response_json (r : HTTPResponse) : Except PyErr PyVal :=
  match r.jsonBody with
  | some v => .ok v
  | none => .error (.ofClass .requestsJSONDecodeError)

/-- Python subscription `v["key"]` on a decoded JSON value: a lookup raising
`KeyError` on an object without the key, and `TypeError` on any non-object
(lists and strings reject string indices, scalars are not subscriptable). -/
def py_subscript (v : PyVal) (key : String) : Except PyErr PyVal :=
  match v with
  | .jobj fields =>
    match fields.lookup key with
    | some x => .ok x
    | none => .error { cls := .keyError, arg := .jstr key, response := none }
  | _ => .error (.ofClass .typeError)

/-- The body of the `try` at remote.py lines 134-136:
`details = response.json()["detail"]; raise EvidentlyServiceError(details)`.
Always ends in an exception; which one depends on the body. -/
def detail_check (r : HTTPResponse) : Except PyErr Unit :=
  match response_json r with
  | .error e => .error e
  | .ok j =>
    match py_subscript j "detail" with
    | .error e => .error e
    | .ok d => .error { cls := .evidentlyServiceError, arg := d, response := none }

/-- `Response.raise_for_status()`: `requests.exceptions.HTTPError` (carrying
the response) for a 4xx or 5xx status code, nothing otherwise. -/
def raise_for_status (r : HTTPResponse) : Except PyErr Unit :=
  if 400 ≤ r.status ∧ r.status < 600 then
    .error { cls := .requestsHTTPError, arg := .jnull, response := some r }
  else .ok ()

/-- Remote.py lines 133-139: for a status ≥ 400, run the detail inspection
under `except ValueError: pass`, then `response.raise_for_status()`. -/
def handle_error_status (r : HTTPResponse) : Except PyErr Unit :=
  match
    (if r.status ≥ 400 then
      match detail_check r with
      | .ok u => .ok u
      | .error e => if e.isinstance .valueError then .ok () else .error e
    else .ok () : Except PyErr Unit) with
  | .error e => .error e
  | .ok _ => raise_for_status r

/-- What the wire does with one prepared request: a connection-level failure
(`requests.exceptions.ConnectionError` from `Session.send`) or a response. -/
inductive SendOutcome where
  | fail
  | resp (r : HTTPResponse)

/-- The remote service as the transport sees it: one outcome per request. -/
def Server := HTTPRequest → SendOutcome

/-- `Session().send(request.prepare())` (remote.py lines 130-131). -/
def session_send (server : Server) (req : HTTPRequest) : Except PyErr HTTPResponse :=
  match server req with
  | .fail => .error (.ofClass .requestsConnectionError)
  | .resp r => .ok r

/-- `RemoteBase._request` with `response_model=None` (remote.py lines
118-142), as dispatched on a `RemoteMetadataStorage` instance: prepare (with
the secret header), send, run the error-status handling, return the raw
response.  The first component lists the HTTP requests actually put on the
wire by the call. -/
def RemoteMetadataStorage._request_raw (self : RemoteMetadataStorage) (server : Server)
    (path method : String)
    (query_params : Option (List (String × String)))
    (body : Option (List (String × PyVal)))
    (cookies : Option (List (String × String)))
    (headers : Option (List (String × String)))
    (form_data : Bool) : List HTTPRequest × Except PyErr HTTPResponse :=
  match (self._prepare_request path method query_params body cookies headers form_data).result with
  | .error e => ([], .error e)
  | .ok req =>
    ([req],
     match session_send server req with
     | .error e => .error e
     | .ok r =>
       match handle_error_status r with
       | .error e => .error e
       | .ok _ => .ok r)

/-- `RemoteBase._request` with a `response_model` (remote.py lines 140-141):
as `_request_raw`, then `parse_obj_as(response_model, response.json())`,
with `response_model` embedded as its pydantic decoding function. -/
def RemoteMetadataStorage._request_typed {α : Type} (self : RemoteMetadataStorage)
    (server : Server) (path method : String)
    (query_params : Option (List (String × String)))
    (body : Option (List (String × PyVal)))
    (cookies : Option (List (String × String)))
    (headers : Option (List (String × String)))
    (form_data : Bool)
    (response_model : PyVal → Except PyErr α) : List HTTPRequest × Except PyErr α :=
  match self._request_raw server path method query_params body cookies headers form_data with
  | (log, .error e) => (log, .error e)
  | (log, .ok r) =>
    (log,
     match response_json r with
     | .error e => .error e
     | .ok j => response_model j)

/-- Modelled from the spec: the Project DTO (`evidently.ui.base.Project`, not
among the repository files given) — an identity plus display attributes,
materialized from JSON on the wire; only the fields the claims touch are
modelled, with the opaque ProjectID rendered as a number serialized in its
string form. -/
structure Project where
  id : Nat
  name : String
deriving DecidableEq

/-- Modelled from the spec: the domain serialization contract `.dict()` on a
Project (a JSON-mapping representation of the object). -/
def Project.dict (p : Project) : List (String × PyVal) :=
  [("id", .jstr (toString p.id)), ("name", .jstr p.name)]

/-- The value of a decimal digit. -/
def digitVal (c : Char) : Option Nat :=
  if '0' ≤ c ∧ c ≤ '9' then some (c.toNat - '0'.toNat) else none

/-- Decimal parse of a character list, most significant digit first. -/
def decimalFrom (acc : Nat) : List Char → Option Nat
  | [] => some acc
  | c :: cs =>
    match digitVal c with
    | some d => decimalFrom (acc * 10 + d) cs
    | none => none

/-- Decimal parse of a string: the number it denotes, or nothing when it is
empty or holds a non-digit. -/
def strToNat (s : String) : Option Nat :=
  match s.data with
  | [] => none
  | cs => decimalFrom 0 cs

/-- Modelled from the spec: `parse_obj_as(Project, ·)` — pydantic decoding of
a Project from a JSON value, raising a ValidationError (a `ValueError`
subclass in pydantic v1) when the value does not match the shape. -/
def parse_project (v : PyVal) : Except PyErr Project :=
  match v with
  | .jobj fields =>
    match fields.lookup "id", fields.lookup "name" with
    | some (.jstr i), some (.jstr n) =>
      match strToNat i with
      | some idn => .ok { id := idn, name := n }
      | none => .error (.ofClass .validationError)
    | _, _ => .error (.ofClass .validationError)
  | _ => .error (.ofClass .validationError)

/-- Modelled from the spec: `parse_obj_as(List[Project], ·)`. -/
def parse_project_list (v : PyVal) : Except PyErr (List Project) :=
  match v with
  | .jarr elems => elems.mapM parse_project
  | _ => .error (.ofClass .validationError)

/-- Modelled from the spec: the SnapshotMetadata DTO
(`evidently.ui.base.SnapshotMetadata`, not among the repository files given):
a SnapshotID plus a back-reference to its parent Project, which the wire
representation does not carry (deserialization leaves it unset) and which is
attached by the separate binding step. -/
structure SnapshotMetadata where
  id : Nat
  project : Option Project
deriving DecidableEq

/-- Modelled from the spec: the domain `bind(parent)` operation on
SnapshotMetadata — attach the already-fetched parent Project. -/
def SnapshotMetadata.bind (sm : SnapshotMetadata) (p : Project) : SnapshotMetadata :=
  { sm with project := some p }

/-- Modelled from the spec: `parse_obj_as(SnapshotMetadata, ·)`. -/
def parse_snapshot_metadata (v : PyVal) : Except PyErr SnapshotMetadata :=
  match v with
  | .jobj fields =>
    match fields.lookup "id" with
    | some (.jstr i) =>
      match strToNat i with
      | some idn => .ok { id := idn, project := none }
      | none => .error (.ofClass .validationError)
    | _ => .error (.ofClass .validationError)
  | _ => .error (.ofClass .validationError)

/-- Modelled from the spec: `parse_obj_as(List[SnapshotMetadata], ·)`. -/
def parse_snapshot_metadata_list (v : PyVal) : Except PyErr (List SnapshotMetadata) :=
  match v with
  | .jarr elems => elems.mapM parse_snapshot_metadata
  | _ => .error (.ofClass .validationError)

/-- Modelled from the spec: a Team reference — identity plus attributes,
supplied by the caller; only the identity is read by this module. -/
structure Team where
  id : Option Nat

/-- Modelled from the spec: a User reference, supplied by the caller and not
read by this module's operations. -/
structure User where
  id : Nat

/-- Modelled from the spec: the well-known sentinel "zero" identifier
(`ZERO_UUID` from `evidently.ui.type_aliases`, not among the repository
files given) meaning "no team" / "unset". -/
def ZERO_UUID : Nat := 0

/-- Whether the first character list starts with the second. -/
def startsWithChars : List Char → List Char → Bool
  | _, [] => true
  | [], _ :: _ => false
  | c :: cs, p :: ps => (c = p) && startsWithChars cs ps

/-- Whether the second character list occurs inside the first (Python's
`sub in s` on strings). -/
def containsSubChars : List Char → List Char → Bool
  | [], sub => sub.isEmpty
  | c :: rest, sub => startsWithChars (c :: rest) sub || containsSubChars rest sub

/-- Python `v == "s"` for a decoded JSON value against a string literal:
true exactly for the equal string (equality across types is `False`). -/
def pyEqStr (v : PyVal) (s : String) : Bool :=
  match v with
  | .jstr t => t == s
  | _ => false

/-- The `except (HTTPError,)` handler body of
`RemoteMetadataStorage.get_project` (remote.py lines 185-192):
`data = e.response.json()` — `urllib.error.HTTPError` has no `response`
attribute, so this raises `AttributeError` unless the exception value
carries one; `except (ValueError, AttributeError): raise e` re-raises the
caught exception on any such failure; otherwise
`if "detail" in data and data["detail"] == "project not found": return None`
else `raise e`.  A `TypeError` from `in` / subscription on a non-container
body is caught by neither clause and escapes as itself. -/
def get_project_handler (e : PyErr) : Except PyErr (Option Project) :=
  match e.response with
  | none => .error e
  | some r =>
    match r.jsonBody with
    | none => .error e
    | some data =>
      match data with
      | .jobj fields =>
        match fields.lookup "detail" with
        | some d => if pyEqStr d "project not found" then .ok none else .error e
        | none => .error e
      | .jarr elems =>
        if elems.any (fun x => pyEqStr x "detail") then .error (.ofClass .typeError)
        else .error e
      | .jstr s =>
        if containsSubChars s.data "detail".data then .error (.ofClass .typeError)
        else .error e
      | _ => .error (.ofClass .typeError)

/-- `RemoteMetadataStorage.get_project` (remote.py lines 182-192): GET the
project's info sub-resource typed as Project; on an exception, run the
`except (HTTPError,)` handler when the exception is an instance of
`urllib.error.HTTPError`, and re-raise otherwise. -/
def RemoteMetadataStorage.get_project (self : RemoteMetadataStorage) (server : Server)
    (project_id : Nat) : List HTTPRequest × Except PyErr (Option Project) :=
  match self._request_typed server ("/api/projects/" ++ toString project_id ++ "/info")
      "GET" none none none none false parse_project with
  | (log, .ok p) => (log, .ok (some p))
  | (log, .error e) =>
    if e.isinstance .urllibHTTPError then (log, get_project_handler e)
    else (log, .error e)

/-- `RemoteMetadataStorage.add_project` (remote.py lines 176-180): build the
optional `team_id` query parameter, then POST the project body to the
projects collection, typed as Project. -/
def RemoteMetadataStorage.add_project (self : RemoteMetadataStorage) (server : Server)
    (project : Project) (user : User) (team : Option Team) :
    List HTTPRequest × Except PyErr Project :=
  let params : List (String × String) :=
    match team with
    | some t =>
      match t.id with
      | some tid => if tid ≠ ZERO_UUID then [("team_id", toString tid)] else []
      | none => []
    | none => []
  self._request_typed server "/api/projects" "POST" (some params) (some project.dict)
    none none false parse_project

/-- `RemoteMetadataStorage.list_projects` (remote.py lines 197-198): GET the
projects collection typed as `List[Project]`; the `project_ids` argument is
not used. -/
def RemoteMetadataStorage.list_projects (self : RemoteMetadataStorage) (server : Server)
    (project_ids : Option (List Nat)) : List HTTPRequest × Except PyErr (List Project) :=
  self._request_typed server "/api/projects" "GET" none none none none false parse_project_list

/-- `RemoteMetadataStorage.search_project` (remote.py lines 206-207): GET the
search sub-resource with the name in the path, typed as `List[Project]`; the
`project_ids` argument is not used. -/
def RemoteMetadataStorage.search_project (self : RemoteMetadataStorage) (server : Server)
    (project_name : String) (project_ids : Option (List Nat)) :
    List HTTPRequest × Except PyErr (List Project) :=
  self._request_typed server ("/api/projects/search/" ++ project_name) "GET"
    none none none none false parse_project_list

/-- `RemoteMetadataStorage.list_snapshots` (remote.py lines 209-220): fetch
the parent project; raise `ProjectNotFound` when it is absent; otherwise GET
the snapshots collection and bind every returned SnapshotMetadata to the
fetched project.  `include_reports` and `include_test_suites` are not
used. -/
def RemoteMetadataStorage.list_snapshots (self : RemoteMetadataStorage) (server : Server)
    (project_id : Nat) (include_reports include_test_suites : Bool) :
    List HTTPRequest × Except PyErr (List SnapshotMetadata) :=
  match self.get_project server project_id with
  | (log, .error e) => (log, .error e)
  | (log, .ok none) => (log, .error (.ofClass .projectNotFound))
  | (log, .ok (some project)) =>
    match self._request_typed server ("/api/projects/" ++ toString project_id ++ "/snapshots")
        "GET" none none none none false parse_snapshot_metadata_list with
    | (log2, .error e) => (log ++ log2, .error e)
    | (log2, .ok sms) => (log ++ log2, .ok (sms.map (fun sm => sm.bind project)))

/-- `RemoteMetadataStorage.get_snapshot_metadata` (remote.py lines 222-228):
fetch the parent project; raise `ProjectNotFound` when it is absent;
otherwise GET the single snapshot's metadata and bind it to the fetched
project. -/
def RemoteMetadataStorage.get_snapshot_metadata (self : RemoteMetadataStorage) (server : Server)
    (project_id snapshot_id : Nat) :
    List HTTPRequest × Except PyErr SnapshotMetadata :=
  match self.get_project server project_id with
  | (log, .error e) => (log, .error e)
  | (log, .ok none) => (log, .error (.ofClass .projectNotFound))
  | (log, .ok (some project)) =>
    match self._request_typed server
        ("/api/projects/" ++ toString project_id ++ "/" ++ toString snapshot_id ++ "/metadata")
        "GET" none none none none false parse_snapshot_metadata with
    | (log2, .error e) => (log ++ log2, .error e)
    | (log2, .ok sm) => (log ++ log2, .ok (sm.bind project))

/-- Modelled from the spec: the expected service identity string
(`EVIDENTLY_APPLICATION_NAME` from `evidently.ui.api.service`, not among the
repository files given). -/
def EVIDENTLY_APPLICATION_NAME : String := "Evidently UI"

/-- The state of a `RemoteWorkspaceView`: its base URL, the optional secret,
and the metadata adapter of the composed project manager (the blob, data and
auth components are no-op adapters with no bearing on verification). -/
structure RemoteWorkspaceView where
  base_url : String
  secret : Option String
  metadata : RemoteMetadataStorage

/-- `RemoteWorkspaceView.verify` (remote.py lines 280-285): GET
`/api/version` raw through the metadata adapter's transport and assert that
the JSON body's `application` field equals the expected identity; convert
`urllib.error.HTTPError`, `JSONDecodeError`, `KeyError` and `AssertionError`
into a `ValueError` naming the endpoint (the source's message text,
misspelling included); any other exception propagates as itself. -/
def RemoteWorkspaceView.verify (self : RemoteWorkspaceView) (server : Server) :
    Except PyErr Unit :=
  let attempt : Except PyErr Unit :=
    match (self.metadata._request_raw server "/api/version" "GET"
        none none none none false).2 with
    | .error e => .error e
    | .ok r =>
      match response_json r with
      | .error e => .error e
      | .ok j =>
        match py_subscript j "application" with
        | .error e => .error e
        | .ok a =>
          if pyEqStr a EVIDENTLY_APPLICATION_NAME then .ok ()
          else .error (.ofClass .assertionError)
  match attempt with
  | .ok _ => .ok ()
  | .error e =>
    if e.isinstance .urllibHTTPError || e.isinstance .jsonDecodeError
        || e.isinstance .keyError || e.isinstance .assertionError then
      .error { cls := .valueError,
               arg := .jstr ("Evidenly API not available at " ++ self.base_url),
               response := none }
    else .error e

/-- `RemoteWorkspaceView.__init__` (remote.py lines 287-297): build the
project manager around a `RemoteMetadataStorage` with the same base URL and
secret, then call `verify`; an exception from `verify` propagates out of the
constructor, so no instance is produced. -/
def RemoteWorkspaceView.construct (server : Server) (base_url : String)
    (secret : Option String) : Except PyErr RemoteWorkspaceView :=
  let ws : RemoteWorkspaceView :=
    { base_url := base_url, secret := secret,
      metadata := { base_url := base_url, secret := secret } }
  match ws.verify server with
  | .ok _ => .ok ws
  | .error e => .error e

/-! ### Exception-class inventory of the transport

The recovery handler in `get_project` and the `except` tuple in `verify`
test for `urllib.error.HTTPError`.  The lemmas below list the exception
classes each stage of the transport can actually raise; none of them is in
`urllib.error.HTTPError`'s chain. -/

theorem detail_check_classes (r : HTTPResponse) (e : PyErr)
    (h : detail_check r = .error e) :
    e.cls = .requestsJSONDecodeError ∨ e.cls = .keyError ∨ e.cls = .typeError ∨
      e.cls = .evidentlyServiceError := by
  cases hb : r.jsonBody with
  | none =>
    simp [detail_check, response_json, hb] at h
    simp [← h, PyErr.ofClass]
  | some v =>
    cases v with
    | jobj fields =>
      cases hl : fields.lookup "detail" with
      | none =>
        simp [detail_check, response_json, py_subscript, hb, hl] at h
        simp [← h]
      | some d =>
        simp [detail_check, response_json, py_subscript, hb, hl] at h
        simp [← h]
    | jnull =>
      simp [detail_check, response_json, py_subscript, hb] at h
      simp [← h, PyErr.ofClass]
    | jbool b =>
      simp [detail_check, response_json, py_subscript, hb] at h
      simp [← h, PyErr.ofClass]
    | jnum f =>
      simp [detail_check, response_json, py_subscript, hb] at h
      simp [← h, PyErr.ofClass]
    | jstr s =>
      simp [detail_check, response_json, py_subscript, hb] at h
      simp [← h, PyErr.ofClass]
    | jarr elems =>
      simp [detail_check, response_json, py_subscript, hb] at h
      simp [← h, PyErr.ofClass]
    | ioStream c =>
      simp [detail_check, response_json, py_subscript, hb] at h
      simp [← h, PyErr.ofClass]

theorem raise_for_status_classes (r : HTTPResponse) (e : PyErr)
    (h : raise_for_status r = .error e) : e.cls = .requestsHTTPError := by
  unfold raise_for_status at h
  split at h
  · injection h with h; simp [← h]
  · exact absurd h (by simp)

theorem handle_error_status_classes (r : HTTPResponse) (e : PyErr)
    (h : handle_error_status r = .error e) :
    e.cls = .keyError ∨ e.cls = .typeError ∨ e.cls = .evidentlyServiceError ∨
      e.cls = .requestsHTTPError := by
  unfold handle_error_status at h
  by_cases h4 : r.status ≥ 400
  · rw [if_pos h4] at h
    cases hdc : detail_check r with
    | ok u =>
      rw [hdc] at h
      dsimp only at h
      exact Or.inr (Or.inr (Or.inr (raise_for_status_classes r e h)))
    | error e0 =>
      rw [hdc] at h
      dsimp only at h
      by_cases hv : e0.isinstance .valueError
      · rw [if_pos (by simpa using hv)] at h
        dsimp only at h
        exact Or.inr (Or.inr (Or.inr (raise_for_status_classes r e h)))
      · rw [if_neg (by simpa using hv)] at h
        dsimp only at h
        injection h with h
        subst h
        rcases detail_check_classes r e0 hdc with h1 | h1 | h1 | h1 <;> simp [h1]
        exact absurd hv (by simp [PyErr.isinstance, h1, PyClass.ancestors]; decide)
  · rw [if_neg h4] at h
    dsimp only at h
    exact Or.inr (Or.inr (Or.inr (raise_for_status_classes r e h)))

mutual

theorem json_dumps_classes (a : Bool) (v : PyVal) (e : PyErr)
    (h : json_dumps a v = .error e) : e.cls = .valueError ∨ e.cls = .typeError := by
  cases v with
  | jnull => exact absurd h (by simp [json_dumps])
  | jbool b => exact absurd h (by simp [json_dumps])
  | jstr s => exact absurd h (by simp [json_dumps])
  | jnum f =>
    cases f with
    | finite q => exact absurd h (by simp [json_dumps])
    | nan =>
      cases a with
      | true => exact absurd h (by simp [json_dumps])
      | false =>
        simp [json_dumps] at h
        simp [← h, PyErr.ofClass]
    | inf =>
      cases a with
      | true => exact absurd h (by simp [json_dumps])
      | false =>
        simp [json_dumps] at h
        simp [← h, PyErr.ofClass]
    | neginf =>
      cases a with
      | true => exact absurd h (by simp [json_dumps])
      | false =>
        simp [json_dumps] at h
        simp [← h, PyErr.ofClass]
  | jarr elems =>
    rw [json_dumps] at h
    cases hl : json_dumps_list a elems with
    | ok ds => rw [hl] at h; exact absurd h (by simp [Except.map])
    | error e0 =>
      rw [hl] at h
      simp [Except.map] at h
      exact h ▸ json_dumps_list_classes a elems e0 hl
  | jobj fields =>
    rw [json_dumps] at h
    cases hl : json_dumps_obj a fields with
    | ok ds => rw [hl] at h; exact absurd h (by simp [Except.map])
    | error e0 =>
      rw [hl] at h
      simp [Except.map] at h
      exact h ▸ json_dumps_obj_classes a fields e0 hl
  | ioStream c =>
    simp [json_dumps] at h
    simp [← h, PyErr.ofClass]

theorem json_dumps_list_classes (a : Bool) (vs : List PyVal) (e : PyErr)
    (h : json_dumps_list a vs = .error e) : e.cls = .valueError ∨ e.cls = .typeError := by
  cases vs with
  | nil => exact absurd h (by simp [json_dumps_list])
  | cons v vs =>
    rw [json_dumps_list] at h
    cases hd : json_dumps a v with
    | error e0 =>
      rw [hd] at h
      injection h with h
      exact h ▸ json_dumps_classes a v e0 hd
    | ok d =>
      rw [hd] at h
      dsimp only at h
      cases hds : json_dumps_list a vs with
      | error e0 =>
        rw [hds] at h
        injection h with h
        exact h ▸ json_dumps_list_classes a vs e0 hds
      | ok ds => rw [hds] at h; exact absurd h (by simp)

theorem json_dumps_obj_classes (a : Bool) (kvs : List (String × PyVal)) (e : PyErr)
    (h : json_dumps_obj a kvs = .error e) : e.cls = .valueError ∨ e.cls = .typeError := by
  cases kvs with
  | nil => exact absurd h (by simp [json_dumps_obj])
  | cons kv kvs =>
    obtain ⟨k, v⟩ := kv
    rw [json_dumps_obj] at h
    cases hd : json_dumps a v with
    | error e0 =>
      rw [hd] at h
      injection h with h
      exact h ▸ json_dumps_classes a v e0 hd
    | ok d =>
      rw [hd] at h
      dsimp only at h
      cases hds : json_dumps_obj a kvs with
      | error e0 =>
        rw [hds] at h
        injection h with h
        exact h ▸ json_dumps_obj_classes a kvs e0 hds
      | ok ds => rw [hds] at h; exact absurd h (by simp)

end

theorem base_prepare_classes (url path method : String)
    (qp : Option (List (String × String))) (body : Option (List (String × PyVal)))
    (cookies headers : Option (List (String × String))) (fd : Bool) (e : PyErr)
    (h : (RemoteBase._prepare_request url path method qp body cookies headers fd).result
          = .error e) :
    e.cls = .valueError ∨ e.cls = .typeError := by
  unfold RemoteBase._prepare_request at h
  cases body with
  | none => exact absurd h (by simp)
  | some b =>
    dsimp only at h
    by_cases hf : fd
    · rw [if_pos hf] at h
      exact absurd h (by simp)
    · rw [if_neg hf] at h
      cases hd : json_dumps true (.jobj b) with
      | error e0 =>
        rw [hd] at h
        dsimp only at h
        injection h with h
        exact h ▸ json_dumps_classes true (.jobj b) e0 hd
      | ok d => rw [hd] at h; exact absurd h (by simp)

theorem storage_prepare_classes (self : RemoteMetadataStorage) (path method : String)
    (qp : Option (List (String × String))) (body : Option (List (String × PyVal)))
    (cookies headers : Option (List (String × String))) (fd : Bool) (e : PyErr)
    (h : (self._prepare_request path method qp body cookies headers fd).result = .error e) :
    e.cls = .valueError ∨ e.cls = .typeError := by
  unfold RemoteMetadataStorage._prepare_request at h
  cases hs : self.secret with
  | none =>
    rw [hs] at h
    exact base_prepare_classes self.base_url path method qp body cookies headers fd e h
  | some s =>
    rw [hs] at h
    dsimp only at h
    cases hb : (RemoteBase._prepare_request self.base_url path method qp body
        cookies headers fd).result with
    | error e0 =>
      rw [hb] at h
      dsimp only at h
      rw [hb] at h
      injection h with h
      exact h ▸ base_prepare_classes self.base_url path method qp body cookies headers fd e0 hb
    | ok req =>
      rw [hb] at h
      exact absurd h (by simp)

/-- The exception classes `_request_raw` can raise: everything surfaced by
preparation, the wire, and the error-status handling. -/
theorem _request_raw_classes (self : RemoteMetadataStorage) (server : Server)
    (path method : String)
    (qp : Option (List (String × String))) (body : Option (List (String × PyVal)))
    (cookies headers : Option (List (String × String))) (fd : Bool) (e : PyErr)
    (h : (self._request_raw server path method qp body cookies headers fd).2 = .error e) :
    e.cls = .valueError ∨ e.cls = .typeError ∨ e.cls = .requestsConnectionError ∨
      e.cls = .keyError ∨ e.cls = .evidentlyServiceError ∨ e.cls = .requestsHTTPError := by
  unfold RemoteMetadataStorage._request_raw at h
  cases hp : (self._prepare_request path method qp body cookies headers fd).result with
  | error e0 =>
    rw [hp] at h
    injection h with h
    rcases storage_prepare_classes self path method qp body cookies headers fd e0 hp
      with h1 | h1 <;> simp [← h, h1]
  | ok req =>
    rw [hp] at h
    dsimp only at h
    cases hsend : session_send server req with
    | error e0 =>
      rw [hsend] at h
      injection h with h
      subst h
      unfold session_send at hsend
      cases hs : server req with
      | fail => rw [hs] at hsend; injection hsend with hsend; simp [← hsend, PyErr.ofClass]
      | resp r => rw [hs] at hsend; exact absurd hsend (by simp)
    | ok r =>
      rw [hsend] at h
      dsimp only at h
      cases hh : handle_error_status r with
      | error e0 =>
        rw [hh] at h
        injection h with h
        subst h
        rcases handle_error_status_classes r e0 hh with h1 | h1 | h1 | h1 <;> simp [h1]
      | ok u => rw [hh] at h; exact absurd h (by simp)

/-- The exception classes `_request` with a response model can raise: those
of `_request_raw` plus the response decode (`Response.json()` and
pydantic validation). -/
theorem _request_typed_classes {α : Type} (self : RemoteMetadataStorage) (server : Server)
    (path method : String)
    (qp : Option (List (String × String))) (body : Option (List (String × PyVal)))
    (cookies headers : Option (List (String × String))) (fd : Bool)
    (pm : PyVal → Except PyErr α) (e : PyErr)
    (hpm : ∀ j e0, pm j = .error e0 → e0.cls = .validationError)
    (h : (self._request_typed server path method qp body cookies headers fd pm).2 = .error e) :
    e.cls = .valueError ∨ e.cls = .typeError ∨ e.cls = .requestsConnectionError ∨
      e.cls = .keyError ∨ e.cls = .evidentlyServiceError ∨ e.cls = .requestsHTTPError ∨
      e.cls = .requestsJSONDecodeError ∨ e.cls = .validationError := by
  unfold RemoteMetadataStorage._request_typed at h
  cases hraw : self._request_raw server path method qp body cookies headers fd with
  | mk log res =>
    rw [hraw] at h
    cases res with
    | error e0 =>
      dsimp only at h
      injection h with h
      subst h
      have := _request_raw_classes self server path method qp body cookies headers fd e0
        (by rw [hraw])
      tauto
    | ok r =>
      dsimp only at h
      cases hj : response_json r with
      | error e0 =>
        rw [hj] at h
        injection h with h
        subst h
        unfold response_json at hj
        cases hb : r.jsonBody with
        | some v => rw [hb] at hj; exact absurd hj (by simp)
        | none =>
          rw [hb] at hj
          injection hj with hj
          simp [← hj, PyErr.ofClass]
      | ok j =>
        rw [hj] at h
        dsimp only at h
        simp [hpm j e h]

/-- No exception the transport can raise is an instance of
`urllib.error.HTTPError`: the class the `except` clauses of `get_project`
and `verify` test for. -/
theorem _request_typed_not_urllib {α : Type} (self : RemoteMetadataStorage) (server : Server)
    (path method : String)
    (qp : Option (List (String × String))) (body : Option (List (String × PyVal)))
    (cookies headers : Option (List (String × String))) (fd : Bool)
    (pm : PyVal → Except PyErr α) (e : PyErr)
    (hpm : ∀ j e0, pm j = .error e0 → e0.cls = .validationError)
    (h : (self._request_typed server path method qp body cookies headers fd pm).2 = .error e) :
    e.isinstance .urllibHTTPError = false := by
  rcases _request_typed_classes self server path method qp body cookies headers fd pm e hpm h
    with h1 | h1 | h1 | h1 | h1 | h1 | h1 | h1 <;>
    · unfold PyErr.isinstance
      rw [h1]
      decide

theorem parse_project_classes (v : PyVal) (e : PyErr) (h : parse_project v = .error e) :
    e.cls = .validationError := by
  unfold parse_project at h
  split at h <;> (try split at h) <;> (try split at h) <;>
    simp_all <;> simp [← h, PyErr.ofClass]

/-- `get_project` never produces the absence value: the only path returning
`None` sits inside an `except (HTTPError,)` handler for
`urllib.error.HTTPError`, and no exception of the transport is one. -/
theorem get_project_never_none (self : RemoteMetadataStorage) (server : Server)
    (project_id : Nat) : (self.get_project server project_id).2 ≠ .ok none := by
  unfold RemoteMetadataStorage.get_project
  cases ht : self._request_typed server ("/api/projects/" ++ toString project_id ++ "/info")
      "GET" none none none none false parse_project with
  | mk log res =>
    cases res with
    | ok p => simp
    | error e =>
      have hni := _request_typed_not_urllib self server
        ("/api/projects/" ++ toString project_id ++ "/info") "GET" none none none none false
        parse_project e (fun j e0 hj => parse_project_classes j e0 hj) (by rw [ht])
      simp [hni]

/-! ### Concrete fixtures -/

/-- A metadata-storage instance at the spec's example base URL, no secret. -/
def svcStorage : RemoteMetadataStorage := { base_url := "http://svc:8000", secret := none }

/-- A remote answering every request `404 {"detail": "project not found"}` —
the spec's own example for the get-project recovery path. -/
def projectNotFoundServer : Server := fun _ =>
  .resp { status := 404, jsonBody := some (.jobj [("detail", .jstr "project not found")]) }

/-- A remote answering every request `404` with a JSON object that has no
`detail` field. -/
def noDetailServer : Server := fun _ =>
  .resp { status := 404, jsonBody := some (.jobj [("code", .jbool true)]) }

/-- A remote that refuses every connection. -/
def unreachableServer : Server := fun _ => .fail

/-- A remote whose version payload reports a different application
identity. -/
def wrongIdentityServer : Server := fun _ =>
  .resp { status := 200, jsonBody := some (.jobj [("application", .jstr "Other Service")]) }

/-- A remote that, asked for project 1, returns a project whose identity is
2, and asked anything else returns one snapshot with id 10. -/
def mismatchedProjectServer : Server := fun req =>
  if req.url == "http://svc:8000/api/projects/1/info" then
    .resp { status := 200, jsonBody := some (.jobj [("id", .jstr "2"), ("name", .jstr "x")]) }
  else
    .resp { status := 200, jsonBody := some (.jarr [.jobj [("id", .jstr "10")]]) }

/-! ### The claims -/

/-- C1: the spec says a 404 whose JSON `detail` is exactly
`"project not found"` makes `get_project` return absence without raising.
The code disagrees: `_request` converts that very response into
`EvidentlyServiceError("project not found")` before `get_project`'s handler
can run, and the handler catches `urllib.error.HTTPError` — a class no
exception of the requests-based transport is an instance of — so
`get_project` raises and can never return the absence value (second
conjunct).  The other half of the claim (any other failure raises) holds,
precisely because the recovery handler is unreachable. -/
theorem C1_get_project_not_found_code_bug :
    (svcStorage.get_project projectNotFoundServer 7).2
      = .error { cls := .evidentlyServiceError, arg := .jstr "project not found",
                 response := none }
    ∧ ∀ (self : RemoteMetadataStorage) (server : Server) (pid : Nat),
        (self.get_project server pid).2 ≠ .ok none :=
  ⟨rfl, fun self server pid => get_project_never_none self server pid⟩

/-- C2 counterexample: a 404 response whose body is valid JSON without a
`detail` field makes the body inspection itself fail the call with a
`KeyError` — which is neither the generic HTTP error nor a ServiceError —
so the inspection does not "never fail the call path with any other
exception" as claimed. -/
theorem C2_body_inspection_counterexample :
    (svcStorage._request_raw noDetailServer "/x" "GET" none none none none false).2
      = .error { cls := .keyError, arg := .jstr "detail", response := none }
    ∧ (PyErr.mk .keyError (.jstr "detail") none).isinstance .requestsHTTPError = false
    ∧ (PyErr.mk .keyError (.jstr "detail") none).isinstance .evidentlyServiceError = false :=
  ⟨rfl, by decide, by decide⟩

/-- C3: the spec says snapshot operations on an unresolvable ProjectID raise
`ProjectNotFound` without attempting the snapshot HTTP call.  The code does
short-circuit (only the one project-info request is on the wire, first
conjuncts), but the error that aborts the call is the transport's
`EvidentlyServiceError("project not found")` propagating out of
`get_project`, never `ProjectNotFound`: the `raise ProjectNotFound()` branch
is unreachable because `get_project` cannot return absence.  The third
conjunct states the short-circuit in general: when the parent fetch raises,
the snapshot operations re-raise it having issued exactly the parent
fetch's requests. -/
theorem C3_snapshot_ops_code_bug :
    (svcStorage.list_snapshots projectNotFoundServer 7 true true)
      = ([{ method := "GET", url := "http://svc:8000/api/projects/7/info", params := none,
            data := none, files := none, headers := [], cookies := [] }],
         .error { cls := .evidentlyServiceError, arg := .jstr "project not found",
                  response := none })
    ∧ (svcStorage.get_snapshot_metadata projectNotFoundServer 7 9)
      = ([{ method := "GET", url := "http://svc:8000/api/projects/7/info", params := none,
            data := none, files := none, headers := [], cookies := [] }],
         .error { cls := .evidentlyServiceError, arg := .jstr "project not found",
                  response := none })
    ∧ ∀ (self : RemoteMetadataStorage) (server : Server) (pid : Nat) (ir its : Bool)
        (log : List HTTPRequest) (e : PyErr),
        self.get_project server pid = (log, .error e) →
        self.list_snapshots server pid ir its = (log, .error e)
          ∧ ∀ sid, self.get_snapshot_metadata server pid sid = (log, .error e) := by
  refine ⟨rfl, rfl, fun self server pid ir its log e h => ?_⟩
  constructor
  · unfold RemoteMetadataStorage.list_snapshots
    rw [h]
  · intro sid
    unfold RemoteMetadataStorage.get_snapshot_metadata
    rw [h]

/-- C4: the spec says any verification failure turns into a configuration
error naming the endpoint.  A mismatched application identity does (second
conjunct), but a transport-level failure does not: the `except` tuple in
`verify` lists `urllib.error.HTTPError`, which the requests-based transport
never raises, so a connection failure propagates as the raw
`ConnectionError` (first conjunct) rather than the `ValueError` naming the
endpoint.  In both cases construction yields no instance. -/
theorem C4_construct_code_bug :
    RemoteWorkspaceView.construct unreachableServer "http://svc:8000" none
      = .error (.ofClass .requestsConnectionError)
    ∧ RemoteWorkspaceView.construct wrongIdentityServer "http://svc:8000" none
      = .error { cls := .valueError,
                 arg := .jstr "Evidenly API not available at http://svc:8000",
                 response := none } :=
  ⟨rfl, rfl⟩

/-- C5 counterexample: against a remote whose project-info payload carries
identity 2 for the request about ProjectID 1, `list_snapshots 1` returns a
snapshot bound to the project with identity 2 — the binding is to the
fetched Project value, not to the requested ProjectID, and no identity
check is performed. -/
theorem C5_binding_counterexample :
    (svcStorage.list_snapshots mismatchedProjectServer 1 true true).2
      = .ok [{ id := 10, project := some { id := 2, name := "x" } }]
    ∧ (2 : Nat) ≠ 1 :=
  ⟨rfl, by decide⟩

/-- C10 counterexample: a JSON body is prepared and sent (second conjunct:
the request carries the serialized body and the `Content-Type` header), yet
the caller's headers mapping — empty, hence falsy, hence replaced by a
fresh dict by `headers = headers or {}` — gains nothing. -/
theorem C10_prepare_mutation_counterexample :
    (RemoteBase._prepare_request "http://h" "/p" "POST" none (some [("a", .jstr "v")])
      none (some []) false).headersAfter = some []
    ∧ (RemoteBase._prepare_request "http://h" "/p" "POST" none (some [("a", .jstr "v")])
      none (some []) false).result
        = .ok { method := "POST", url := "http://h/p", params := none,
                data := some (.jsonData (.dobj [("a", .dstr "v")])), files := none,
                headers := [("Content-Type", "application/json")], cookies := [] } :=
  ⟨rfl, rfl⟩

/-- Evaluation of `_request_raw` once the prepared request and the wire's
response are known: the call reduces to the error-status handling of the
response. -/
theorem _request_raw_eval (self : RemoteMetadataStorage) (server : Server)
    (path method : String) (qp : Option (List (String × String)))
    (body : Option (List (String × PyVal))) (cookies headers : Option (List (String × String)))
    (fd : Bool) (req : HTTPRequest) (r : HTTPResponse)
    (hprep : (self._prepare_request path method qp body cookies headers fd).result = .ok req)
    (hsend : server req = .resp r) :
    (self._request_raw server path method qp body cookies headers fd).2
      = match handle_error_status r with
        | .error e => .error e
        | .ok _ => .ok r := by
  unfold RemoteMetadataStorage._request_raw
  rw [hprep]
  dsimp only
  unfold session_send
  rw [hsend]

/-- Evaluation of the error-status handling (remote.py lines 133-139) on a
4xx/5xx response, by the shape of its body. -/
theorem handle_error_status_eval (r : HTTPResponse) (h4 : r.status >= 400)
    (h6 : r.status < 600) :
    handle_error_status r
      = match r.jsonBody with
        | none => .error { cls := .requestsHTTPError, arg := .jnull, response := some r }
        | some (.jobj fields) =>
          match fields.lookup "detail" with
          | some d => .error { cls := .evidentlyServiceError, arg := d, response := none }
          | none => .error { cls := .keyError, arg := .jstr "detail", response := none }
        | some _ => .error (.ofClass .typeError) := by
  have hv1 : (PyErr.ofClass .requestsJSONDecodeError).isinstance .valueError = true := rfl
  have hv2 : ∀ d, (PyErr.mk .evidentlyServiceError d none).isinstance .valueError = false :=
    fun d => rfl
  have hv3 : (PyErr.mk .keyError (.jstr "detail") none).isinstance .valueError = false := rfl
  have hv4 : (PyErr.ofClass .typeError).isinstance .valueError = false := rfl
  unfold handle_error_status raise_for_status detail_check response_json py_subscript
  rw [if_pos h4, if_pos (show 400 <= r.status ∧ r.status < 600 from ⟨h4, h6⟩)]
  cases hb : r.jsonBody with
  | none => simp [hv1]
  | some v =>
    cases v with
    | jobj fields =>
      cases hl : fields.lookup "detail" with
      | none => simp [hl, hv3]
      | some d => simp [hl, hv2]
    | jnull => simp [hv4]
    | jbool b => simp [hv4]
    | jnum f => simp [hv4]
    | jstr s2 => simp [hv4]
    | jarr elems => simp [hv4]
    | ioStream c => simp [hv4]

/-- C2 (amended): for a response with status in [400, 600): a JSON-object
body with a `detail` field yields `EvidentlyServiceError` carrying that
detail; a body that is not valid JSON falls through to the generic
`requests` HTTP error; but a valid JSON body without a reachable `detail`
field makes the inspection itself fail the call — `KeyError` for an object
without the key, `TypeError` for a non-object — because only `ValueError`
is caught around the inspection. -/
theorem C2_error_envelope_amended (self : RemoteMetadataStorage) (server : Server)
    (path method : String) (qp : Option (List (String × String)))
    (body : Option (List (String × PyVal))) (cookies headers : Option (List (String × String)))
    (fd : Bool) (req : HTTPRequest) (r : HTTPResponse)
    (hprep : (self._prepare_request path method qp body cookies headers fd).result = .ok req)
    (hsend : server req = .resp r)
    (h4 : 400 <= r.status) (h6 : r.status < 600) :
    (∀ fields d, r.jsonBody = some (.jobj fields) → fields.lookup "detail" = some d →
      (self._request_raw server path method qp body cookies headers fd).2
        = .error { cls := .evidentlyServiceError, arg := d, response := none })
    ∧ (r.jsonBody = none →
      (self._request_raw server path method qp body cookies headers fd).2
        = .error { cls := .requestsHTTPError, arg := .jnull, response := some r })
    ∧ (∀ fields, r.jsonBody = some (.jobj fields) → fields.lookup "detail" = none →
      (self._request_raw server path method qp body cookies headers fd).2
        = .error { cls := .keyError, arg := .jstr "detail", response := none })
    ∧ (∀ v, r.jsonBody = some v → (∀ fields, v ≠ .jobj fields) →
      (self._request_raw server path method qp body cookies headers fd).2
        = .error (.ofClass .typeError)) := by
  rw [_request_raw_eval self server path method qp body cookies headers fd req r hprep hsend,
    handle_error_status_eval r h4 h6]
  refine ⟨fun fields d hb hl => ?_, fun hb => ?_, fun fields hb hl => ?_, fun v hb hnv => ?_⟩
  · simp [hb, hl]
  · simp [hb]
  · simp [hb, hl]
  · cases v with
    | jobj fields => exact absurd rfl (hnv fields)
    | jnull => simp [hb]
    | jbool b => simp [hb]
    | jnum f => simp [hb]
    | jstr s2 => simp [hb]
    | jarr elems => simp [hb]
    | ioStream c => simp [hb]

/-- C2 witness: the amended theorem applied to the spec's own example — a
404 whose body is `{"detail": "server exploded"}` surfaces
`EvidentlyServiceError("server exploded")`. -/
theorem C2_error_envelope_witness :
    (svcStorage._request_raw
      (fun _ => .resp { status := 404, jsonBody := some (.jobj [("detail", .jstr "server exploded")]) })
      "/x" "GET" none none none none false).2
      = .error { cls := .evidentlyServiceError, arg := .jstr "server exploded",
                 response := none } :=
  (C2_error_envelope_amended svcStorage
      (fun _ => .resp { status := 404, jsonBody := some (.jobj [("detail", .jstr "server exploded")]) })
      "/x" "GET" none none none none false
      { method := "GET", url := "http://svc:8000/x", params := none, data := none,
        files := none, headers := [], cookies := [] }
      { status := 404, jsonBody := some (.jobj [("detail", .jstr "server exploded")]) }
      rfl rfl (by decide) (by decide)).1
    [("detail", .jstr "server exploded")] (.jstr "server exploded") rfl rfl

/-- C5 (amended): every SnapshotMetadata coming out of `list_snapshots` or
`get_snapshot_metadata` is bound to exactly the Project value the same
call's `get_project` produced; the code performs no check that this fetched
project's identity equals the requested ProjectID (the counterexample shows
they can differ when the remote misbehaves). -/
theorem C5_binding_amended :
    (∀ (self : RemoteMetadataStorage) (server : Server) (pid : Nat) (ir its : Bool)
       (log : List HTTPRequest) (res : List SnapshotMetadata),
       self.list_snapshots server pid ir its = (log, .ok res) →
       ∃ p, (self.get_project server pid).2 = .ok (some p) ∧
         ∀ sm ∈ res, sm.project = some p)
    ∧ (∀ (self : RemoteMetadataStorage) (server : Server) (pid sid : Nat)
       (log : List HTTPRequest) (sm : SnapshotMetadata),
       self.get_snapshot_metadata server pid sid = (log, .ok sm) →
       ∃ p, (self.get_project server pid).2 = .ok (some p) ∧ sm.project = some p) := by
  constructor
  · intro self server pid ir its log res h
    unfold RemoteMetadataStorage.list_snapshots at h
    cases hg : self.get_project server pid with
    | mk glog gres =>
      rw [hg] at h
      cases gres with
      | error e => simp at h
      | ok po =>
        cases po with
        | none => simp at h
        | some project =>
          cases ht : self._request_typed server
              ("/api/projects/" ++ toString pid ++ "/snapshots") "GET"
              none none none none false parse_snapshot_metadata_list with
          | mk slog sres =>
            rw [ht] at h
            cases sres with
            | error e => simp at h
            | ok sms =>
              simp at h
              refine ⟨project, rfl, ?_⟩
              intro sm hsm
              rw [← h.2] at hsm
              obtain ⟨sm0, -, rfl⟩ := List.mem_map.mp hsm
              rfl
  · intro self server pid sid log sm h
    unfold RemoteMetadataStorage.get_snapshot_metadata at h
    cases hg : self.get_project server pid with
    | mk glog gres =>
      rw [hg] at h
      cases gres with
      | error e => simp at h
      | ok po =>
        cases po with
        | none => simp at h
        | some project =>
          cases ht : self._request_typed server
              ("/api/projects/" ++ toString pid ++ "/" ++ toString sid ++ "/metadata") "GET"
              none none none none false parse_snapshot_metadata with
          | mk slog sres =>
            rw [ht] at h
            cases sres with
            | error e => simp at h
            | ok sm0 =>
              simp at h
              refine ⟨project, rfl, ?_⟩
              rw [← h.2]
              rfl

/-- Dict lookup after a replacing assignment: the assigned key maps to the
assigned value (assignment branch where the key was present). -/
theorem lookup_map_set (k v : String) (xs : List (String × String))
    (hx : xs.any (fun kv => kv.1 == k) = true) :
    (xs.map (fun kv => if kv.1 = k then (k, v) else kv)).lookup k = some v := by
  induction xs with
  | nil => simp at hx
  | cons a as ih =>
    by_cases hak : a.1 = k
    · rw [List.map_cons, if_pos hak]
      simp [List.lookup]
    · rw [List.map_cons, if_neg hak]
      have h2 : (k == a.1) = false := by
        simp only [beq_eq_false_iff_ne, ne_eq]
        exact fun hc => hak hc.symm
      simp only [List.lookup, h2]
      apply ih
      simp only [List.any_cons, Bool.or_eq_true, beq_iff_eq] at hx
      rcases hx with hx | hx
      · exact absurd hx hak
      · exact hx

/-- Dict lookup after an appending assignment: the assigned key maps to the
assigned value (assignment branch where the key was absent). -/
theorem lookup_append_one (k v : String) (xs : List (String × String))
    (hx : ¬ xs.any (fun kv => kv.1 == k) = true) :
    (xs ++ [(k, v)]).lookup k = some v := by
  induction xs with
  | nil => simp [List.lookup]
  | cons a as ih =>
    simp only [List.any_cons, Bool.or_eq_true, beq_iff_eq, not_or] at hx
    have h2 : (k == a.1) = false := by
      simp only [beq_eq_false_iff_ne, ne_eq]
      exact fun hc => hx.1 hc.symm
    simp only [List.cons_append, List.lookup, h2]
    apply ih
    simp only [List.any_eq_true, beq_iff_eq, not_exists]
    intro x hc
    exact hx.2 (by simp only [List.any_eq_true, beq_iff_eq]; exact ⟨x, hc⟩)

/-- Dict assignment followed by lookup of the same key finds the assigned
value. -/
theorem lookup_insertAssoc (xs : List (String × String)) (k v : String) :
    (insertAssoc xs k v).lookup k = some v := by
  unfold insertAssoc
  split
  next hx => exact lookup_map_set k v xs hx
  next hx => exact lookup_append_one k v xs hx

/-- C6: the metadata adapter's request preparation differs from the plain
transport's in exactly one way.  With no secret configured it is literally
the base preparation (first conjunct; in particular no secret header is
added — third conjunct, for the `headers=None` default every adapter
operation uses).  With a secret configured, the prepared request is the
base-prepared request with the fixed secret header set to the configured
value, everything else unchanged (second conjunct). -/
theorem C6_secret_header :
    ∀ (self : RemoteMetadataStorage) (path method : String)
      (qp : Option (List (String × String))) (body : Option (List (String × PyVal)))
      (cookies headers : Option (List (String × String))) (fd : Bool),
    (self.secret = none →
      self._prepare_request path method qp body cookies headers fd
        = RemoteBase._prepare_request self.base_url path method qp body cookies headers fd)
    ∧ (∀ s req0, self.secret = some s →
      (RemoteBase._prepare_request self.base_url path method qp body cookies headers fd).result
          = .ok req0 →
      (self._prepare_request path method qp body cookies headers fd).result
          = .ok { req0 with headers := insertAssoc req0.headers SECRET_HEADER_NAME s }
        ∧ (insertAssoc req0.headers SECRET_HEADER_NAME s).lookup SECRET_HEADER_NAME = some s
        ∧ (self._prepare_request path method qp body cookies headers fd).bodyAfter
            = (RemoteBase._prepare_request self.base_url path method qp body cookies
                headers fd).bodyAfter)
    ∧ (self.secret = none → headers = none →
      ∀ req, (self._prepare_request path method qp body cookies headers fd).result = .ok req →
        req.headers.lookup SECRET_HEADER_NAME = none) := by
  intro self path method qp body cookies headers fd
  refine ⟨fun hs => ?_, fun s req0 hs hb => ?_, fun hs hh req hr => ?_⟩
  · unfold RemoteMetadataStorage._prepare_request
    rw [hs]
  · unfold RemoteMetadataStorage._prepare_request
    rw [hs]
    refine ⟨by simp [hb], lookup_insertAssoc req0.headers SECRET_HEADER_NAME s, by simp [hb]⟩
  · subst hh
    unfold RemoteMetadataStorage._prepare_request at hr
    rw [hs] at hr
    unfold RemoteBase._prepare_request at hr
    cases body with
    | none =>
      simp at hr
      rw [← hr]
      rfl
    | some b =>
      by_cases hf : fd
      · subst hf
        simp at hr
        rw [← hr]
        rfl
      · simp [hf] at hr
        cases hd : json_dumps true (.jobj b) with
        | error e0 => rw [hd] at hr; simp at hr
        | ok d =>
          rw [hd] at hr
          simp at hr
          rw [← hr]
          rfl

/-- The typed request puts the same requests on the wire as the raw one. -/
theorem _request_typed_fst {α : Type} (self : RemoteMetadataStorage) (server : Server)
    (path method : String) (qp : Option (List (String × String)))
    (body : Option (List (String × PyVal))) (cookies headers : Option (List (String × String)))
    (fd : Bool) (pm : PyVal → Except PyErr α) :
    (self._request_typed server path method qp body cookies headers fd pm).1
      = (self._request_raw server path method qp body cookies headers fd).1 := by
  unfold RemoteMetadataStorage._request_typed
  cases h : self._request_raw server path method qp body cookies headers fd with
  | mk log res => cases res <;> rfl

/-- When preparation succeeds, `_request` puts exactly the prepared request
on the wire. -/
theorem _request_raw_fst (self : RemoteMetadataStorage) (server : Server)
    (path method : String) (qp : Option (List (String × String)))
    (body : Option (List (String × PyVal))) (cookies headers : Option (List (String × String)))
    (fd : Bool) (req : HTTPRequest)
    (hprep : (self._prepare_request path method qp body cookies headers fd).result = .ok req) :
    (self._request_raw server path method qp body cookies headers fd).1 = [req] := by
  unfold RemoteMetadataStorage._request_raw
  rw [hprep]

/-- Evaluation of `add_project`'s one wire request once its query-parameter
list is known: a POST to the projects collection with the serialized
project body and exactly those parameters. -/
theorem add_project_request_eval (self : RemoteMetadataStorage) (server : Server)
    (project : Project) (user : User) (team : Option Team)
    (p : List (String × String))
    (hp : self.add_project server project user team
        = self._request_typed server "/api/projects" "POST" (some p) (some project.dict)
            none none false parse_project) :
    ∃ req,
      (self.add_project server project user team).1 = [req]
      ∧ req.method = "POST"
      ∧ req.url = urljoin self.base_url "/api/projects"
      ∧ req.data = some (.jsonData (.dobj [("id", .dstr (toString project.id)),
          ("name", .dstr project.name)]))
      ∧ req.params = some p := by
  rw [hp]
  cases hsec : self.secret with
  | none =>
    refine ⟨{ method := "POST", url := urljoin self.base_url "/api/projects",
              params := some p,
              data := some (.jsonData (.dobj [("id", .dstr (toString project.id)),
                ("name", .dstr project.name)])),
              files := none, headers := [("Content-Type", "application/json")],
              cookies := [] }, ?_, rfl, rfl, rfl, rfl⟩
    rw [_request_typed_fst]
    exact _request_raw_fst self server "/api/projects" "POST" (some p)
      (some project.dict) none none false _
      (by unfold RemoteMetadataStorage._prepare_request; rw [hsec]; rfl)
  | some s0 =>
    refine ⟨{ method := "POST", url := urljoin self.base_url "/api/projects",
              params := some p,
              data := some (.jsonData (.dobj [("id", .dstr (toString project.id)),
                ("name", .dstr project.name)])),
              files := none,
              headers := [("Content-Type", "application/json"), (SECRET_HEADER_NAME, s0)],
              cookies := [] }, ?_, rfl, rfl, rfl, rfl⟩
    rw [_request_typed_fst]
    exact _request_raw_fst self server "/api/projects" "POST" (some p)
      (some project.dict) none none false _
      (by unfold RemoteMetadataStorage._prepare_request; rw [hsec]; rfl)

/-- C7: `add_project` puts exactly one request on the wire — a POST to the
projects collection carrying the project body — whose query parameters
contain a `team_id` entry if and only if a team with a present, non-zero
identity was supplied (and then that entry is the team identity's string
form). -/
theorem C7_add_project_request :
    ∀ (self : RemoteMetadataStorage) (server : Server) (project : Project) (user : User)
      (team : Option Team),
    ∃ req,
      (self.add_project server project user team).1 = [req]
      ∧ req.method = "POST"
      ∧ req.url = urljoin self.base_url "/api/projects"
      ∧ req.data = some (.jsonData (.dobj [("id", .dstr (toString project.id)),
          ("name", .dstr project.name)]))
      ∧ ∀ s, (("team_id", s) ∈ req.params.getD [])
          ↔ ∃ t tid, team = some t ∧ t.id = some tid ∧ tid ≠ ZERO_UUID ∧ s = toString tid := by
  intro self server project user team
  rcases team with _ | ⟨tidOpt⟩
  · obtain ⟨req, hlog, hm, hu, hd, hp⟩ :=
      add_project_request_eval self server project user none [] rfl
    refine ⟨req, hlog, hm, hu, hd, fun s => ?_⟩
    rw [hp]
    simp
  · rcases tidOpt with _ | tid
    · obtain ⟨req, hlog, hm, hu, hd, hp⟩ :=
        add_project_request_eval self server project user (some ⟨none⟩) [] rfl
      refine ⟨req, hlog, hm, hu, hd, fun s => ?_⟩
      rw [hp]
      simp
    · by_cases h0 : tid = ZERO_UUID
      · obtain ⟨req, hlog, hm, hu, hd, hp⟩ :=
          add_project_request_eval self server project user (some ⟨some tid⟩) []
            (by unfold RemoteMetadataStorage.add_project
                show self._request_typed server "/api/projects" "POST"
                  (some (if tid ≠ ZERO_UUID then [("team_id", toString tid)] else []))
                  (some project.dict) none none false parse_project = _
                rw [if_neg (by rw [not_not]; exact h0)])
        refine ⟨req, hlog, hm, hu, hd, fun s => ?_⟩
        rw [hp]
        simp only [Option.getD_some, List.not_mem_nil, false_iff]
        rintro ⟨t, tid2, ht, hid, hne, -⟩
        simp only [Option.some.injEq] at ht
        rw [← ht] at hid
        simp only [Team.mk.injEq, Option.some.injEq] at hid
        exact hne (hid ▸ h0)
      · obtain ⟨req, hlog, hm, hu, hd, hp⟩ :=
          add_project_request_eval self server project user (some ⟨some tid⟩)
            [("team_id", toString tid)]
            (by unfold RemoteMetadataStorage.add_project
                show self._request_typed server "/api/projects" "POST"
                  (some (if tid ≠ ZERO_UUID then [("team_id", toString tid)] else []))
                  (some project.dict) none none false parse_project = _
                rw [if_pos h0])
        refine ⟨req, hlog, hm, hu, hd, fun s => ?_⟩
        rw [hp]
        simp only [Option.getD_some, List.mem_singleton, Prod.mk.injEq, true_and]
        constructor
        · intro hs
          exact ⟨⟨some tid⟩, tid, rfl, rfl, h0, hs⟩
        · rintro ⟨t, tid2, ht, hid, -, rfl⟩
          simp only [Option.some.injEq] at ht
          rw [← ht] at hid
          simp only [Team.mk.injEq, Option.some.injEq] at hid
          rw [hid]

mutual

/-- With `allow_nan=True` — the source's setting — serialization of any
stream-free value succeeds and the Python decoder recovers exactly the
value, non-finite floats included (they travel as the `NaN` / `Infinity` /
`-Infinity` literals). -/
theorem json_round_trip (v : PyVal) (h : v.ioFree = true) :
    ∃ d, json_dumps true v = .ok d ∧ json_loads d = v := by
  cases v with
  | jnull => exact ⟨.dnull, rfl, rfl⟩
  | jbool b => exact ⟨.dbool b, rfl, rfl⟩
  | jstr s => exact ⟨.dstr s, rfl, rfl⟩
  | jnum f =>
    cases f with
    | finite q => exact ⟨.dnum (.decLit q), rfl, rfl⟩
    | nan => exact ⟨.dnum .nanLit, rfl, rfl⟩
    | inf => exact ⟨.dnum .infLit, rfl, rfl⟩
    | neginf => exact ⟨.dnum .negInfLit, rfl, rfl⟩
  | jarr elems =>
    obtain ⟨ds, h1, h2⟩ := json_round_trip_list elems (by simpa [PyVal.ioFree] using h)
    exact ⟨.darr ds, by rw [json_dumps, h1]; rfl, by rw [json_loads, h2]⟩
  | jobj fields =>
    obtain ⟨ds, h1, h2⟩ := json_round_trip_obj fields (by simpa [PyVal.ioFree] using h)
    exact ⟨.dobj ds, by rw [json_dumps, h1]; rfl, by rw [json_loads, h2]⟩
  | ioStream c => simp [PyVal.ioFree] at h

theorem json_round_trip_list (vs : List PyVal) (h : PyVal.ioFreeList vs = true) :
    ∃ ds, json_dumps_list true vs = .ok ds ∧ json_loads_list ds = vs := by
  cases vs with
  | nil => exact ⟨[], rfl, rfl⟩
  | cons v vs =>
    rw [PyVal.ioFreeList, Bool.and_eq_true] at h
    obtain ⟨d, h1, h2⟩ := json_round_trip v h.1
    obtain ⟨ds, h3, h4⟩ := json_round_trip_list vs h.2
    exact ⟨d :: ds, by rw [json_dumps_list, h1, h3], by rw [json_loads_list, h2, h4]⟩

theorem json_round_trip_obj (kvs : List (String × PyVal))
    (h : PyVal.ioFreeObj kvs = true) :
    ∃ ds, json_dumps_obj true kvs = .ok ds ∧ json_loads_obj ds = kvs := by
  cases kvs with
  | nil => exact ⟨[], rfl, rfl⟩
  | cons kv kvs =>
    obtain ⟨k, v⟩ := kv
    rw [PyVal.ioFreeObj, Bool.and_eq_true] at h
    obtain ⟨d, h1, h2⟩ := json_round_trip v h.1
    obtain ⟨ds, h3, h4⟩ := json_round_trip_obj kvs h.2
    exact ⟨(k, d) :: ds, by rw [json_dumps_obj, h1, h3], by rw [json_loads_obj, h2, h4]⟩

end

/-- C8: preparing a JSON request (form_data false) whose stream-free body
mapping contains non-finite floats succeeds — the `allow_nan=True` dumps
raises nothing — and the serialized payload attached to the request decodes
back to exactly the original body. -/
theorem C8_nonfinite_serialization (url path method : String)
    (qp : Option (List (String × String))) (cookies headers : Option (List (String × String)))
    (body : List (String × PyVal))
    (hio : PyVal.ioFree (.jobj body) = true)
    (hnf : PyVal.hasNonFinite (.jobj body) = true) :
    ∃ req d,
      (RemoteBase._prepare_request url path method qp (some body) cookies headers false).result
        = .ok req
      ∧ req.data = some (.jsonData d)
      ∧ json_loads d = .jobj body := by
  obtain ⟨d, h1, h2⟩ := json_round_trip (.jobj body) hio
  have hres : (RemoteBase._prepare_request url path method qp (some body) cookies
      headers false).result
      = .ok { method := method, url := urljoin url path, params := qp,
              data := some (.jsonData d), files := none,
              headers := insertAssoc (headers.getD []) "Content-Type" "application/json",
              cookies := cookies.getD [] } := by
    unfold RemoteBase._prepare_request
    dsimp only
    rw [h1]
    rfl
  exact ⟨_, d, hres, rfl, h2⟩

/-- C8 witness: a body carrying NaN, +Inf, -Inf and a finite float prepares
successfully and round-trips. -/
theorem C8_nonfinite_serialization_witness :
    ∃ req d,
      (RemoteBase._prepare_request "http://svc:8000" "/api/projects" "POST" none
        (some [("a", .jnum .nan), ("b", .jnum .inf), ("c", .jnum .neginf),
               ("d", .jnum (.finite (3 / 2)))]) none none false).result = .ok req
      ∧ req.data = some (.jsonData d)
      ∧ json_loads d = .jobj [("a", .jnum .nan), ("b", .jnum .inf), ("c", .jnum .neginf),
               ("d", .jnum (.finite (3 / 2)))] :=
  C8_nonfinite_serialization "http://svc:8000" "/api/projects" "POST" none none none
    [("a", .jnum .nan), ("b", .jnum .inf), ("c", .jnum .neginf),
     ("d", .jnum (.finite (3 / 2)))] rfl rfl

/-- C9: the filter arguments of the listing operations are dead: any two
values of `project_ids` give literally the same `list_projects` and
`search_project` calls (same wire requests, same outcome), and any two
values of `include_reports` / `include_test_suites` give literally the same
`list_snapshots` call. -/
theorem C9_filter_args_no_effect :
    ∀ (self : RemoteMetadataStorage) (server : Server)
      (pids pids2 : Option (List Nat)) (name : String) (pid : Nat)
      (ir its ir2 its2 : Bool),
    self.list_projects server pids = self.list_projects server pids2
    ∧ self.search_project server name pids = self.search_project server name pids2
    ∧ self.list_snapshots server pid ir its = self.list_snapshots server pid ir2 its2 :=
  fun _ _ _ _ _ _ _ _ _ _ => ⟨rfl, rfl, rfl⟩

/-- C10 (amended): preparing a request mutates the caller's argument
mappings as follows.  Form bodies: every binary-stream entry is popped from
the caller's `body` dict (leaving the plain form fields), and those entries
become the file-parts collection; the headers are untouched.  JSON bodies:
the caller's `headers` dict gains the `Content-Type` entry when it is
non-empty, but an empty or absent headers mapping is falsy, is replaced by
a fresh dict (`headers = headers or {}`), and the caller's mapping — if any
— is left unchanged; the body dict is not mutated.  Without a body neither
mapping is touched. -/
theorem C10_prepare_mutation_amended :
    ∀ (url path method : String) (qp : Option (List (String × String)))
      (body : Option (List (String × PyVal)))
      (cookies headers : Option (List (String × String))),
    (∀ b, body = some b →
      (RemoteBase._prepare_request url path method qp body cookies headers true).bodyAfter
          = some (b.filter (fun kv => !kv.2.isIOBase))
        ∧ (RemoteBase._prepare_request url path method qp body cookies headers true).headersAfter
          = headers
        ∧ ∀ req, (RemoteBase._prepare_request url path method qp body cookies
            headers true).result = .ok req →
            req.files = some (b.filter (fun kv => kv.2.isIOBase)))
    ∧ (∀ b hs, body = some b → headers = some hs → hs ≠ [] →
      (RemoteBase._prepare_request url path method qp body cookies headers false).headersAfter
          = some (insertAssoc hs "Content-Type" "application/json")
        ∧ (RemoteBase._prepare_request url path method qp body cookies headers false).bodyAfter
          = some b)
    ∧ (∀ b, body = some b → (headers = none ∨ headers = some []) →
      (RemoteBase._prepare_request url path method qp body cookies headers false).headersAfter
          = headers
        ∧ (RemoteBase._prepare_request url path method qp body cookies headers false).bodyAfter
          = some b)
    ∧ (body = none → ∀ fd,
      (RemoteBase._prepare_request url path method qp body cookies headers fd).bodyAfter = none
        ∧ (RemoteBase._prepare_request url path method qp body cookies headers fd).headersAfter
          = headers) := by
  intro url path method qp body cookies headers
  refine ⟨fun b hb => ?_, fun b hs hb hh hne => ?_, fun b hb hh => ?_, fun hb fd => ?_⟩
  · subst hb
    exact ⟨rfl, rfl, fun req hr => by
      unfold RemoteBase._prepare_request at hr
      simp at hr
      rw [← hr]⟩
  · subst hb
    subst hh
    unfold RemoteBase._prepare_request
    dsimp only
    cases hd : json_dumps true (.jobj b) with
    | error e0 => exact ⟨by simp [hne], rfl⟩
    | ok d => exact ⟨by simp [hne], rfl⟩
  · subst hb
    rcases hh with hh | hh <;> subst hh
    · unfold RemoteBase._prepare_request
      dsimp only
      cases hd : json_dumps true (.jobj b) with
      | error e0 => exact ⟨rfl, rfl⟩
      | ok d => exact ⟨rfl, rfl⟩
    · unfold RemoteBase._prepare_request
      dsimp only
      cases hd : json_dumps true (.jobj b) with
      | error e0 => exact ⟨rfl, rfl⟩
      | ok d => exact ⟨rfl, rfl⟩
  · subst hb
    exact ⟨rfl, rfl⟩
